import Mathlib

/-!
Verification of the customer360-copilot analysis/insights core against its
specification.

The repository ships the React/TypeScript frontend (pages, components, the
API client) and the shared TypeScript type definitions; the FastAPI backend
that implements the analysis pipeline (orchestrator, batcher, sanitizer,
scorer, renderer, QA engine) is not part of the available sources.  Frontend
logic is embedded directly from the TypeScript files; backend behaviour is
modelled from the specification, with every such definition marked
"Modelled from the spec".  Machine floats become rationals, counts become
naturals, ISO dates become chronological day ordinals, and free text that is
only ever passed through verbatim stays a string.
-/

/-! ## Shared data model (from src/unnamed/part_003, the TypeScript types) -/

/-- Output formats for account insights, from the TypeScript union
`SummaryFormat = 'tables' | 'pointers' | 'charts'`. -/
inductive SummaryFormat
  | pointers
  | tables
  | charts
deriving DecidableEq

/-- Chart kinds, from the TypeScript union in `ChartData.chart_type`. -/
inductive ChartType
  | bar
  | line
  | pie
deriving DecidableEq

/-- One dataset of a chart, from the `ChartDataset` interface (styling
fields, which carry no invariants, are omitted). -/
structure ChartDataset where
  label : Option String
  data : List ℚ
deriving DecidableEq

/-- A rendered chart, from the `ChartData` interface. -/
structure ChartData where
  title : String
  chart_type : ChartType
  labels : List String
  datasets : List ChartDataset
deriving DecidableEq

/-- A rendered table, from the `TableData` interface; cells are rendered to
strings (the source allows `string | number` cells). -/
structure TableData where
  headers : List String
  rows : List (List String)
deriving DecidableEq

/-- Batching metadata, from the `ProcessingInfo` interface. -/
structure ProcessingInfo where
  batch_size : ℕ
  batches_processed : ℕ
  task_count : ℕ
  event_count : ℕ
  case_count : ℕ
deriving DecidableEq

/-- The tagged content of an insight section.  The TypeScript type is the
untagged union `string | string[] | Record<string, unknown>`; the spec fixes
the shape by the section format, which the tag makes explicit. -/
inductive SectionContent
  | pointerList (items : List String)
  | tableMap (tables : List (String × TableData))
  | chartRef
deriving DecidableEq

/-- One insight section, from the `InsightSection` interface. -/
structure InsightSection where
  title : String
  format : SummaryFormat
  content : SectionContent
deriving DecidableEq

/-- A date range, from the `DateRange` interface; ISO date strings are
modelled as chronological day ordinals. -/
structure DateRange where
  start_date : ℕ
  end_date : ℕ
deriving DecidableEq

/-- An account-insights request, from the `AccountInsightsRequest`
interface. -/
structure AccountInsightsRequest where
  start_date : ℕ
  end_date : ℕ
  formats : List SummaryFormat
deriving DecidableEq

/-- The four chain-of-thought stages, from the `ReasoningSteps`
interface (each stage optional free text). -/
structure ReasoningSteps where
  problem_understanding : Option String
  data_analysis : Option String
  key_insights : Option String
  action_planning : Option String
deriving DecidableEq

/-- A case record, from the `CaseData` interface plus the case number the
closed-case response echoes back. -/
structure CaseRecord where
  case_id : String
  case_number : String
  subject : String
  description : String
  priority : String
  status : String
  created_date : String
  closed_date : Option String
deriving DecidableEq

/-- The closed-case response, from the `CaseClosedResponse` interface. -/
structure CaseClosedResponse where
  is_closed : Bool
  case_number : String
  status : String
  message : String
  closed_date : Option String
deriving DecidableEq

/-- The QA response, from the `CaseQueryResponse` interface. -/
structure CaseQueryResponse where
  answer : String
  sources : List String
  confidence : ℚ
  case_id : String
deriving DecidableEq

/-! ## Frontend: format selection (src/frontend/src/components/FormatSelector.tsx) -/

/-- `handleToggle` from FormatSelector.tsx lines 23-32: toggling a selected
format filters it out unless it is the only selection, toggling an
unselected format appends it. -/
def handleToggle (selectedFormats : List SummaryFormat) (format : SummaryFormat) :
    List SummaryFormat :=
  if format ∈ selectedFormats then
    if 1 < selectedFormats.length then
      selectedFormats.filter (fun f => f != format)
    else
      selectedFormats
  else
    selectedFormats ++ [format]

/-- `handleSelectAll` from FormatSelector.tsx lines 34-37. -/
def handleSelectAll : List SummaryFormat :=
  [SummaryFormat.pointers, SummaryFormat.tables, SummaryFormat.charts]

/-! ## Frontend: analyze-response discrimination (src/frontend/src/pages/AgentDashboard.tsx) -/

/-- The analyze-case response as the dashboard receives it over the wire: a
JSON object whose fields may or may not be present, covering the union of
the `CaseAnalysisResponse` and `CaseClosedResponse` shapes.  `none` models
an absent field. -/
structure AnalyzeResponseData where
  case_id : Option String
  is_closed : Option Bool
  accuracy_percentage : Option ℚ
  sanitized_summary : Option String
  case_number : Option String
  status : Option String
  message : Option String
  closed_date : Option String
deriving DecidableEq

/-- `isCaseClosed` from AgentDashboard.tsx line 73: the response is treated
as a closed case when the `is_closed` field is present and truthy
(`'is_closed' in data && data.is_closed`). -/
def isCaseClosed (d : AnalyzeResponseData) : Bool :=
  d.is_closed.isSome && d.is_closed.getD false

/-- The analysis-variant check from AgentDashboard.tsx line 78: the response
is treated as an analysis only when it is not a closed case and the
`accuracy_percentage` field is present
(`!isCaseClosed && rawData && 'accuracy_percentage' in rawData`). -/
def analysisDefined (d : AnalyzeResponseData) : Bool :=
  !isCaseClosed d && d.accuracy_percentage.isSome

/-- A response carrying only analysis fields (concrete input for the
discrimination theorems). -/
def responseWithAccuracyOnly : AnalyzeResponseData :=
  { case_id := some "500A1", is_closed := none, accuracy_percentage := some 87,
    sanitized_summary := some "summary", case_number := none, status := none,
    message := none, closed_date := none }

/-- A response carrying neither an `is_closed` flag nor an
`accuracy_percentage` field (concrete input for the discrimination
theorems). -/
def responseEmpty : AnalyzeResponseData :=
  { case_id := some "500A2", is_closed := none, accuracy_percentage := none,
    sanitized_summary := none, case_number := none, status := none,
    message := none, closed_date := none }

/-! ## Error taxonomy (Modelled from the spec, section 7) -/

/-- Modelled from the spec: the backend error taxonomy of section 7 is not
in the available sources; `NotFoundError`, `GenerationError`,
`ValidationError` and `UpstreamUnavailable` become constructors. -/
inductive CoreError
  | notFoundError
  | generationError
  | validationError
  | upstreamUnavailable
deriving DecidableEq

/-! ## Sanitizer (Modelled from the spec, section 4.2 step 4) -/

/-- Customer-facing text handled by the Sanitizer, represented as its
whitespace-token sequence (the backend string handling is not in the
available sources). -/
abbrev Text := List String

/-- Modelled from the spec: Sanitizer configuration — the employee-name
list and the external contact email address that the redaction rules
consult are backend data absent from the sources. -/
structure SanitizerConfig where
  employeeNames : List String
  contactEmail : String
deriving DecidableEq

/-- The marker a redacted token is replaced with: the spec allows only
redact/replace, never invented content. -/
def redactionToken : String := "[REDACTED]"

/-- Modelled from the spec: an internal account number — a long all-digit
token (the concrete pattern is backend code absent from the sources). -/
def isInternalAccountNumber (w : String) : Bool :=
  8 ≤ w.length && w.toList.all Char.isDigit

/-- Modelled from the spec: a case-internal ticket reference (the concrete
pattern is backend code absent from the sources). -/
def isTicketRef (w : String) : Bool :=
  w.startsWith "INT-"

/-- Modelled from the spec: an email-address token. -/
def isEmailAddress (w : String) : Bool :=
  w.contains '@'

/-- Modelled from the spec: the ordered redaction rules of section 4.2 step
4 — internal account numbers, employee names, case-internal ticket
references, and email addresses not belonging to the external contact. -/
def sanitizeRules (cfg : SanitizerConfig) : List (String → Bool) :=
  [ isInternalAccountNumber,
    fun w => cfg.employeeNames.contains w,
    isTicketRef,
    fun w => isEmailAddress w && !(w == cfg.contactEmail) ]

/-- A token matches the Sanitizer when any ordered rule matches it. -/
def matchesAnyRule (cfg : SanitizerConfig) (w : String) : Bool :=
  (sanitizeRules cfg).any (fun rule => rule w)

/-- Replace a matching token by the redaction marker, keep it otherwise. -/
def redactWord (cfg : SanitizerConfig) (w : String) : String :=
  if matchesAnyRule cfg w then redactionToken else w

/-- Modelled from the spec: `Sanitizer.sanitize` — the rule-based transform
from a raw summary to its customer-safe variant (backend code absent from
the sources); each token is redacted or kept. -/
def sanitize (cfg : SanitizerConfig) (x : Text) : Text :=
  x.map (redactWord cfg)

/-! ## AccuracyScorer (Modelled from the spec, sections 3 and 4.2 step 5) -/

/-- Clamp a rational into `[0, 1]`. -/
def clamp01 (q : ℚ) : ℚ := max 0 (min 1 q)

/-- Round to one decimal place, the rounding the accuracy invariant of
section 3 refers to. -/
def round1 (x : ℚ) : ℚ := ((⌊x * 10 + 1 / 2⌋ : ℤ) : ℚ) / 10

/-- Modelled from the spec: the structured output of the single reasoning
LLM call of section 4.2 step 3, including the optional model-reported
self-assessment signal of step 5 (all backend code absent from the
sources). -/
structure LLMReasoningOutput where
  reasoning : ReasoningSteps
  raw_summary : Text
  next_actions : List String
  priority_level : String
  estimated_resolution_time : Option String
  required_teams : List String
  self_assessment : Option ℚ
deriving DecidableEq

/-- How many of the four expected reasoning-step fields are populated. -/
def countPopulatedSteps (rs : ReasoningSteps) : ℕ :=
  rs.problem_understanding.isSome.toNat + rs.data_analysis.isSome.toNat +
    rs.key_insights.isSome.toNat + rs.action_planning.isSome.toNat

/-- Modelled from the spec: the fallback heuristic of section 4.2 step 5 —
the fraction of the four expected reasoning fields that are populated. -/
def heuristicConfidence (o : LLMReasoningOutput) : ℚ :=
  (countPopulatedSteps o.reasoning : ℚ) / 4

/-- Modelled from the spec: the confidence signal — the model-reported
self-assessment when present (clamped into `[0, 1]`), else the
populated-fields heuristic. -/
def confidenceSignal (o : LLMReasoningOutput) : ℚ :=
  match o.self_assessment with
  | some s => clamp01 s
  | none => heuristicConfidence o

/-- Modelled from the spec: the data-completeness factor in `(0, 1]`
reflecting how many related objects were actually retrievable (section 4.2
step 5; the exact formula is an open question of section 9, so a concrete
monotone choice is fixed here). -/
def completenessFactor (retrieved total : ℕ) : ℚ :=
  min 1 ((1 + (retrieved : ℚ)) / (1 + (total : ℚ)))

/-! ## CaseAnalysisOrchestrator (Modelled from the spec, section 4.2) -/

/-- The analysis response, from the `CaseAnalysisResponse` interface, with
summaries as sanitizer token sequences and scores as rationals. -/
structure CaseAnalysisResponse where
  case_id : String
  reasoning_steps : Option ReasoningSteps
  summary : Text
  next_actions : List String
  priority_level : String
  estimated_resolution_time : Option String
  required_teams : List String
  confidence_score : ℚ
  raw_summary : Text
  sanitized_summary : Text
  accuracy_percentage : ℚ
deriving DecidableEq

/-- The two mutually exclusive outcomes of `AnalyzeCase`. -/
inductive AnalyzeOutcome
  | closed (r : CaseClosedResponse)
  | analysis (r : CaseAnalysisResponse)
deriving DecidableEq

/-- Whether a case record is in a closed status. -/
def caseIsClosed (c : CaseRecord) : Bool :=
  c.status == "Closed" || c.status == "closed"

/-- The message shown for a closed case (the frontend fallback wording from
AgentDashboard.tsx line 142). -/
def closedCaseMessage : String :=
  "This case is closed. Analysis is not available for closed cases."

/-- Modelled from the spec: the `AnalyzeCase` workflow of section 4.2 —
fetch (the fetched record and the related-object retrieval counts are
parameters), short-circuit for closed cases with no LLM call, otherwise one
structured LLM call (whose parsed output is a parameter) followed by the
Sanitizer and the AccuracyScorer.  The second component counts
`LLMGateway.complete` invocations. -/
def analyzeCase (cfg : SanitizerConfig) (c : CaseRecord)
    (includeRelatedObjects : Bool) (retrievedRelated totalRelated : ℕ)
    (llmOut : LLMReasoningOutput) : AnalyzeOutcome × ℕ :=
  if caseIsClosed c then
    (AnalyzeOutcome.closed
      { is_closed := true, case_number := c.case_number, status := c.status,
        message := closedCaseMessage, closed_date := c.closed_date }, 0)
  else
    let factor := completenessFactor
      (if includeRelatedObjects then retrievedRelated else 0) totalRelated
    let conf := confidenceSignal llmOut * factor
    (AnalyzeOutcome.analysis
      { case_id := c.case_id
        reasoning_steps := some llmOut.reasoning
        summary := sanitize cfg llmOut.raw_summary
        next_actions := llmOut.next_actions
        priority_level := llmOut.priority_level
        estimated_resolution_time := llmOut.estimated_resolution_time
        required_teams := llmOut.required_teams
        confidence_score := conf
        raw_summary := llmOut.raw_summary
        sanitized_summary := sanitize cfg llmOut.raw_summary
        accuracy_percentage := round1 (conf * factor * 100) }, 1)

/-! ## ActivityBatcher and InsightsRenderer (Modelled from the spec, sections 4.3 and 4.4) -/

/-- The three activity record types of the glossary: Task, Event, related
Case. -/
inductive ActivityKind
  | task
  | event
  | caseActivity
deriving DecidableEq

/-- Modelled from the spec: one activity record fetched for an account —
typed, timestamped (day ordinal) and carrying the month label the renderer
groups by (the backend record shape is absent from the sources). -/
structure Activity where
  kind : ActivityKind
  activity_id : String
  month : String
  day : ℕ
deriving DecidableEq

/-- How many activities of one kind a fetch returned. -/
def countKind (k : ActivityKind) (acts : List Activity) : ℕ :=
  (acts.filter (fun a => a.kind == k)).length

/-- Modelled from the spec: the fixed batch size bounding each LLM chunk
(the concrete constant is an open question of section 9; the section 8
scenario with 2500 activities and batch_size 500 fixes 500 here). -/
def batchSize : ℕ := 500

/-- Modelled from the spec: the executive summary stating that no activity
was found, for the zero-activities edge case of section 4.3. -/
def noActivityMessage : String :=
  "No activity was found for this account in the selected date range."

/-- Modelled from the spec: the merged, deduplicated per-batch LLM output
of section 4.3 — key themes plus the final merged narrative (the LLM is an
external collaborator, so its output is a parameter of the pipeline). -/
structure BatchLLMOutput where
  themes : List String
  narrative : String
deriving DecidableEq

/-- The merged analysis data the renderer consumes: themes, counts by type,
and counts by month. -/
structure MergedInsights where
  themes : List String
  taskCount : ℕ
  eventCount : ℕ
  caseCount : ℕ
  byMonth : List (String × ℕ)
deriving DecidableEq

/-- Group the fetched activities by month label. -/
def monthCounts (acts : List Activity) : List (String × ℕ) :=
  ((acts.map Activity.month).dedup).map
    (fun mo => (mo, (acts.filter (fun a => a.month == mo)).length))

/-- Merge the fetch and the per-batch LLM themes into the renderer input. -/
def mergedOf (acts : List Activity) (themes : List String) : MergedInsights :=
  { themes := themes
    taskCount := countKind ActivityKind.task acts
    eventCount := countKind ActivityKind.event acts
    caseCount := countKind ActivityKind.caseActivity acts
    byMonth := monthCounts acts }

/-- How many thematic bullet points the pointers format keeps (the top-N of
section 4.4). -/
def topPointerCount : ℕ := 5

/-- Modelled from the spec: the tables rendering of section 4.4 — one
mapping of named sub-tables, `by_type` and `by_month`. -/
def renderTables (m : MergedInsights) : List (String × TableData) :=
  [ ("by_type",
     { headers := ["Type", "Count"],
       rows := [["Tasks", toString m.taskCount],
                ["Events", toString m.eventCount],
                ["Cases", toString m.caseCount]] }),
    ("by_month",
     { headers := ["Month", "Count"],
       rows := m.byMonth.map (fun p => [p.1, toString p.2]) }) ]

/-- Modelled from the spec: the charts rendering of section 4.4 —
categorical counts as bar/pie charts, the time series as a line chart. -/
def renderCharts (m : MergedInsights) : List ChartData :=
  [ { title := "Activity Distribution", chart_type := ChartType.pie,
      labels := ["Tasks", "Events", "Cases"],
      datasets := [{ label := some "Activities",
                     data := [(m.taskCount : ℚ), (m.eventCount : ℚ),
                              (m.caseCount : ℚ)] }] },
    { title := "Activity by Type", chart_type := ChartType.bar,
      labels := ["Tasks", "Events", "Cases"],
      datasets := [{ label := some "Count",
                     data := [(m.taskCount : ℚ), (m.eventCount : ℚ),
                              (m.caseCount : ℚ)] }] },
    { title := "Activity Over Time", chart_type := ChartType.line,
      labels := m.byMonth.map Prod.fst,
      datasets := [{ label := some "Activities",
                     data := m.byMonth.map (fun p => ((p.2 : ℚ))) }] } ]

/-- Modelled from the spec: the sections rendering of section 4.4 — one
section per requested format, in request order, content tagged to match the
format. -/
def renderSections (m : MergedInsights) (formats : List SummaryFormat) :
    List InsightSection :=
  formats.map (fun f =>
    match f with
    | SummaryFormat.pointers =>
        { title := "Key Insights", format := SummaryFormat.pointers,
          content := SectionContent.pointerList (m.themes.take topPointerCount) }
    | SummaryFormat.tables =>
        { title := "Activity Tables", format := SummaryFormat.tables,
          content := SectionContent.tableMap (renderTables m) }
    | SummaryFormat.charts =>
        { title := "Activity Charts", format := SummaryFormat.charts,
          content := SectionContent.chartRef })

/-- Every table row of a rendered table is as long as its header list. -/
def tableWF (t : TableData) : Bool :=
  t.rows.all (fun row => row.length == t.headers.length)

/-- Every dataset of a rendered chart is aligned to its labels, and a pie
chart carries exactly one dataset. -/
def chartWF (c : ChartData) : Bool :=
  c.datasets.all (fun ds => ds.data.length == c.labels.length) &&
    (!(c.chart_type == ChartType.pie) || c.datasets.length == 1)

/-- All tables reachable inside one rendered section are well formed. -/
def sectionTablesWF (s : InsightSection) : Bool :=
  match s.content with
  | SectionContent.tableMap ts => ts.all (fun p => tableWF p.2)
  | _ => true

/-- The account-insights response, from the `AccountInsightsResponse`
interface, with the generation timestamp as a day ordinal. -/
structure AccountInsightsResponse where
  account_id : String
  account_name : String
  date_range : DateRange
  total_activities : ℕ
  processing_info : ProcessingInfo
  sections : List InsightSection
  charts : Option (List ChartData)
  executive_summary : String
  generated_at : ℕ
deriving DecidableEq

/-- Modelled from the spec: assemble the successful `AccountInsightsResult`
of section 3 from the fetched activities, the merged LLM output and the
validated request. -/
def buildInsights (accountId accountName : String) (now : ℕ)
    (llm : BatchLLMOutput) (acts : List Activity)
    (req : AccountInsightsRequest) : AccountInsightsResponse :=
  let m := mergedOf acts llm.themes
  { account_id := accountId
    account_name := accountName
    date_range := { start_date := req.start_date, end_date := req.end_date }
    total_activities := acts.length
    processing_info :=
      { batch_size := batchSize
        batches_processed := (List.toChunks batchSize acts).length
        task_count := countKind ActivityKind.task acts
        event_count := countKind ActivityKind.event acts
        case_count := countKind ActivityKind.caseActivity acts }
    sections := renderSections m req.formats
    charts :=
      if req.formats.contains SummaryFormat.charts
      then some (renderCharts m) else none
    executive_summary :=
      if acts.isEmpty then noActivityMessage else llm.narrative
    generated_at := now }

/-- Modelled from the spec: the `GetAccountInsights` workflow of sections
4.3 and 7 — request validation (start after end, or an empty format set,
is a `ValidationError`), then batching and rendering.  The second component
counts `LLMGateway.complete` invocations: none on a validation failure or
when no activity is in range, otherwise one per batch plus one merge
call. -/
def getAccountInsights (accountId accountName : String) (now : ℕ)
    (llm : BatchLLMOutput) (acts : List Activity)
    (req : AccountInsightsRequest) :
    Except CoreError AccountInsightsResponse × ℕ :=
  if req.end_date < req.start_date then
    (Except.error CoreError.validationError, 0)
  else if req.formats = [] then
    (Except.error CoreError.validationError, 0)
  else
    (Except.ok (buildInsights accountId accountName now llm acts req),
     if acts.isEmpty then 0 else (List.toChunks batchSize acts).length + 1)

/-! ## CaseQAEngine (Modelled from the spec, section 4.5) -/

/-- Modelled from the spec: the parsed output of the single context-bound
QA LLM call — `none` models the case in which the model cannot answer from
the supplied context. -/
structure QALLMOutput where
  answer : String
  sources : List String
  confidence : ℚ
deriving DecidableEq

/-- Modelled from the spec: the explicit insufficient-information answer of
section 4.5. -/
def insufficientAnswer : String :=
  "Insufficient information: the retrieved case context does not contain the data needed to answer this question."

/-- Modelled from the spec: the `QueryCase` workflow of section 4.5 — when
the model cannot answer from context the result carries the explicit
insufficiency answer, no sources, and zero confidence instead of a
fabricated answer; otherwise the parsed answer with its confidence clamped
into `[0, 1]`. -/
def queryCase (caseId _question : String) (llmOut : Option QALLMOutput) :
    CaseQueryResponse :=
  match llmOut with
  | none =>
      { answer := insufficientAnswer, sources := [], confidence := 0,
        case_id := caseId }
  | some o =>
      { answer := o.answer, sources := o.sources,
        confidence := clamp01 o.confidence, case_id := caseId }

/-! ## Concrete sample inputs for the witness theorems -/

/-- A closed case record. -/
def sampleClosedCase : CaseRecord :=
  { case_id := "5003000A", case_number := "00001234",
    subject := "Login failure", description := "User cannot log in",
    priority := "High", status := "Closed", created_date := "2024-01-05",
    closed_date := some "2024-02-01" }

/-- An open case record. -/
def sampleOpenCase : CaseRecord :=
  { case_id := "5003000B", case_number := "00001235",
    subject := "Billing question", description := "Invoice mismatch",
    priority := "Medium", status := "Open", created_date := "2024-03-01",
    closed_date := none }

/-- A parsed reasoning-call output. -/
def sampleLLMOutput : LLMReasoningOutput :=
  { reasoning :=
      { problem_understanding := some "Customer cannot access the portal",
        data_analysis := some "Three failed logins in the audit trail",
        key_insights := none,
        action_planning := some "Reset credentials and confirm" },
    raw_summary := ["Customer", "reported", "repeated", "login", "failures"],
    next_actions := ["Reset the password", "Confirm with the customer"],
    priority_level := "High",
    estimated_resolution_time := some "2 days",
    required_teams := ["Support"],
    self_assessment := some (4 / 5) }

/-- A sanitizer configuration. -/
def sampleConfig : SanitizerConfig :=
  { employeeNames := ["Alice"], contactEmail := "customer@example.com" }

/-- A merged batch-LLM output. -/
def sampleBatchLLM : BatchLLMOutput :=
  { themes := ["login issues", "billing questions"],
    narrative := "Activity centered on login issues." }

/-- A small fetched activity set: one task, one event, one related case. -/
def sampleActs : List Activity :=
  [ { kind := ActivityKind.task, activity_id := "t1", month := "2024-01", day := 10 },
    { kind := ActivityKind.event, activity_id := "e1", month := "2024-01", day := 11 },
    { kind := ActivityKind.caseActivity, activity_id := "c1", month := "2024-02", day := 42 } ]

/-- A valid insights request over January 2024. -/
def sampleRequest : AccountInsightsRequest :=
  { start_date := 20240101, end_date := 20240131,
    formats := [SummaryFormat.pointers, SummaryFormat.tables] }

/-- A malformed insights request whose start date is after its end date. -/
def sampleBadRequest : AccountInsightsRequest :=
  { start_date := 20240201, end_date := 20240101,
    formats := [SummaryFormat.pointers] }

/-! ## Theorems -/

/-- C10 counterexample: the claim quantifies over every non-empty list of
selected formats, but on the non-empty list `[tables, tables]` toggling
`tables` empties the selection — `filter` drops every occurrence, so the
code preserves non-emptiness only for duplicate-free selections. -/
theorem handleToggle_duplicate_counterexample :
    ([SummaryFormat.tables, SummaryFormat.tables] : List SummaryFormat) ≠ [] ∧
      handleToggle [SummaryFormat.tables, SummaryFormat.tables]
        SummaryFormat.tables = [] := by
  decide

/-- C10 (amended): for every non-empty, duplicate-free list of selected
formats and every toggled format, the result is non-empty; deselecting is a
no-op when exactly one format is selected, toggling an unselected format
appends it, and toggling a selected format while others remain removes
exactly that format. -/
theorem handleToggle_preserves_nonempty (l : List SummaryFormat)
    (f : SummaryFormat) (hne : l ≠ []) (hnd : l.Nodup) :
    handleToggle l f ≠ [] ∧
      (f ∈ l → l.length = 1 → handleToggle l f = l) ∧
      (f ∉ l → handleToggle l f = l ++ [f]) ∧
      (f ∈ l → 1 < l.length → handleToggle l f = l.erase f) := by
  have herase : f ∈ l → 1 < l.length → handleToggle l f = l.erase f := by
    intro hf hlen
    unfold handleToggle
    rw [if_pos hf, if_pos hlen]
    exact (List.Nodup.erase_eq_filter hnd f).symm
  refine ⟨?_, ?_, ?_, herase⟩
  · by_cases hf : f ∈ l
    · by_cases hlen : 1 < l.length
      · rw [herase hf hlen]
        have hlen2 := List.length_erase_of_mem hf
        apply List.ne_nil_of_length_pos
        omega
      · unfold handleToggle
        rw [if_pos hf, if_neg hlen]
        exact hne
    · unfold handleToggle
      rw [if_neg hf]
      simp
  · intro hf h1
    unfold handleToggle
    rw [if_pos hf, if_neg (by omega)]
  · intro hf
    unfold handleToggle
    rw [if_neg hf]

/-- C10 witness: toggling `tables` away from the duplicate-free selection
`[pointers, tables]` leaves a non-empty selection. -/
theorem handleToggle_preserves_nonempty_witness :
    handleToggle [SummaryFormat.pointers, SummaryFormat.tables]
      SummaryFormat.tables ≠ [] :=
  (handleToggle_preserves_nonempty
    [SummaryFormat.pointers, SummaryFormat.tables] SummaryFormat.tables
    (by decide) (by decide)).1

/-- C2 counterexample: two analyze responses that agree on the `is_closed`
tag field are classified differently by the dashboard, because the analysis
variant is recognised by probing whether the optional `accuracy_percentage`
field is present — the variant is not determined by a single dedicated tag
field. -/
theorem dashboard_discrimination_probes_fields :
    responseWithAccuracyOnly.is_closed = responseEmpty.is_closed ∧
      isCaseClosed responseWithAccuracyOnly = isCaseClosed responseEmpty ∧
      analysisDefined responseWithAccuracyOnly ≠ analysisDefined responseEmpty := by
  decide

/-- C2 (amended): the two possible results of AnalyzeCase are mutually
exclusive — the dashboard never classifies one response as both a closed
case and an analysis — but the variant is discriminated by ad hoc
presence-of-field checks (presence and truth of `is_closed`, then presence
of `accuracy_percentage`), not by inspecting a single dedicated tag
field. -/
theorem dashboard_variants_mutually_exclusive (d : AnalyzeResponseData) :
    (isCaseClosed d && analysisDefined d) = false := by
  cases h : isCaseClosed d <;> simp [analysisDefined, h]

/-- Redacting a token twice is the same as redacting it once: a matching
token becomes the redaction marker, and redacting the marker yields the
marker whether or not a rule matches it. -/
theorem redactWord_idem (cfg : SanitizerConfig) (w : String) :
    redactWord cfg (redactWord cfg w) = redactWord cfg w := by
  unfold redactWord
  by_cases h : matchesAnyRule cfg w
  · simp [h]
  · simp [h]

/-- C6: `Sanitizer.sanitize` is idempotent — sanitizing already sanitized
text changes nothing. -/
theorem sanitize_idempotent (cfg : SanitizerConfig) (x : Text) :
    sanitize cfg (sanitize cfg x) = sanitize cfg x := by
  induction x with
  | nil => rfl
  | cons a t ih =>
    simp only [sanitize, List.map_cons] at ih ⊢
    rw [redactWord_idem, ih]

/-- C1: for every case whose status is closed, AnalyzeCase returns the
closed-case result, never an analysis result, and performs zero
`LLMGateway.complete` invocations. -/
theorem analyzeCase_closed_short_circuit (cfg : SanitizerConfig)
    (c : CaseRecord) (b : Bool) (r t : ℕ) (o : LLMReasoningOutput)
    (h : caseIsClosed c = true) :
    (∃ cl, (analyzeCase cfg c b r t o).1 = AnalyzeOutcome.closed cl ∧
        cl.is_closed = true) ∧
      (∀ res, (analyzeCase cfg c b r t o).1 ≠ AnalyzeOutcome.analysis res) ∧
      (analyzeCase cfg c b r t o).2 = 0 := by
  unfold analyzeCase
  rw [if_pos h]
  exact ⟨⟨_, rfl, rfl⟩, fun res hres => AnalyzeOutcome.noConfusion hres, rfl⟩

/-- C1 witness: analyzing the sample closed case makes no LLM call. -/
theorem analyzeCase_closed_short_circuit_witness :
    (analyzeCase sampleConfig sampleClosedCase true 2 3 sampleLLMOutput).2 = 0 :=
  (analyzeCase_closed_short_circuit sampleConfig sampleClosedCase true 2 3
    sampleLLMOutput (by decide)).2.2

/-- The confidence signal lies in the unit interval: a model-reported
self-assessment is clamped there, and the populated-fields heuristic is a
fraction of four. -/
theorem confidenceSignal_mem (o : LLMReasoningOutput) :
    0 ≤ confidenceSignal o ∧ confidenceSignal o ≤ 1 := by
  unfold confidenceSignal
  cases h : o.self_assessment with
  | some s =>
    unfold clamp01
    exact ⟨le_max_left 0 _, max_le (by norm_num) (min_le_left _ _)⟩
  | none =>
    unfold heuristicConfidence
    constructor
    · positivity
    · rw [div_le_one (by norm_num)]
      have h4 : countPopulatedSteps o.reasoning ≤ 4 := by
        unfold countPopulatedSteps
        have hb : ∀ x : Bool, x.toNat ≤ 1 := by decide
        have h1 := hb o.reasoning.problem_understanding.isSome
        have h2 := hb o.reasoning.data_analysis.isSome
        have h3 := hb o.reasoning.key_insights.isSome
        have h5 := hb o.reasoning.action_planning.isSome
        omega
      exact_mod_cast h4

/-- The completeness factor is strictly positive. -/
theorem completenessFactor_pos (r t : ℕ) : 0 < completenessFactor r t := by
  unfold completenessFactor
  apply lt_min one_pos
  positivity

/-- The completeness factor is at most one. -/
theorem completenessFactor_le_one (r t : ℕ) : completenessFactor r t ≤ 1 :=
  min_le_left _ _

/-- Rounding a value of `[0, x]` to one decimal place stays non-negative. -/
theorem round1_nonneg {x : ℚ} (h : 0 ≤ x) : 0 ≤ round1 x := by
  unfold round1
  apply div_nonneg _ (by norm_num)
  have hz : (0 : ℤ) ≤ ⌊x * 10 + 1 / 2⌋ := by
    apply Int.le_floor.mpr
    push_cast
    linarith
  exact_mod_cast hz

/-- Rounding a value of at most 100 to one decimal place stays at most
100. -/
theorem round1_le_100 {x : ℚ} (h : x ≤ 100) : round1 x ≤ 100 := by
  unfold round1
  rw [div_le_iff₀ (by norm_num)]
  have hlt : ⌊x * 10 + 1 / 2⌋ < 1001 := by
    apply Int.floor_lt.mpr
    push_cast
    linarith
  have hle : ⌊x * 10 + 1 / 2⌋ ≤ 1000 := by omega
  calc ((⌊x * 10 + 1 / 2⌋ : ℤ) : ℚ) ≤ (1000 : ℚ) := by exact_mod_cast hle
    _ = 100 * 10 := by norm_num

/-- C3: every analysis result of AnalyzeCase has a confidence score in
[0, 1] and an accuracy percentage in [0, 100] equal to the confidence score
times the data-completeness factor times 100, rounded to one decimal place,
with the completeness factor in (0, 1].  Floats are modelled as
rationals. -/
theorem analyzeCase_accuracy_invariants (cfg : SanitizerConfig)
    (c : CaseRecord) (b : Bool) (r t : ℕ) (o : LLMReasoningOutput)
    (h : caseIsClosed c = false) :
    ∃ res, (analyzeCase cfg c b r t o).1 = AnalyzeOutcome.analysis res ∧
      0 ≤ res.confidence_score ∧ res.confidence_score ≤ 1 ∧
      0 ≤ res.accuracy_percentage ∧ res.accuracy_percentage ≤ 100 ∧
      res.accuracy_percentage =
        round1 (res.confidence_score *
          completenessFactor (if b then r else 0) t * 100) ∧
      0 < completenessFactor (if b then r else 0) t ∧
      completenessFactor (if b then r else 0) t ≤ 1 := by
  unfold analyzeCase
  rw [if_neg (by simp [h])]
  have hs := confidenceSignal_mem o
  have hfp := completenessFactor_pos (if b then r else 0) t
  have hf1 := completenessFactor_le_one (if b then r else 0) t
  have hc0 : 0 ≤ confidenceSignal o * completenessFactor (if b then r else 0) t :=
    mul_nonneg hs.1 hfp.le
  have hc1 : confidenceSignal o * completenessFactor (if b then r else 0) t ≤ 1 :=
    mul_le_one₀ hs.2 hfp.le hf1
  refine ⟨_, rfl, hc0, hc1, ?_, ?_, rfl, hfp, hf1⟩
  · apply round1_nonneg
    have := mul_nonneg hc0 hfp.le
    nlinarith
  · apply round1_le_100
    have hcc : confidenceSignal o * completenessFactor (if b then r else 0) t *
        completenessFactor (if b then r else 0) t ≤ 1 :=
      mul_le_one₀ hc1 hfp.le hf1
    nlinarith

/-- C3 witness: the invariants instantiated on the sample open case with
related objects included. -/
theorem analyzeCase_accuracy_invariants_witness :
    ∃ res, (analyzeCase sampleConfig sampleOpenCase true 2 3
        sampleLLMOutput).1 = AnalyzeOutcome.analysis res ∧
      0 ≤ res.confidence_score ∧ res.confidence_score ≤ 1 ∧
      0 ≤ res.accuracy_percentage ∧ res.accuracy_percentage ≤ 100 ∧
      res.accuracy_percentage =
        round1 (res.confidence_score *
          completenessFactor (if true then 2 else 0) 3 * 100) ∧
      0 < completenessFactor (if true then 2 else 0) 3 ∧
      completenessFactor (if true then 2 else 0) 3 ≤ 1 :=
  analyzeCase_accuracy_invariants sampleConfig sampleOpenCase true 2 3
    sampleLLMOutput (by decide)

/-- The per-kind activity counts partition the fetched activity list: the
task, event and case counts sum to the list length. -/
theorem countKind_partition (acts : List Activity) :
    countKind ActivityKind.task acts + countKind ActivityKind.event acts +
      countKind ActivityKind.caseActivity acts = acts.length := by
  induction acts with
  | nil => rfl
  | cons a tl ih =>
    unfold countKind at ih ⊢
    cases hk : a.kind <;>
      simp [List.filter_cons, hk] <;> omega

/-- C4: every successful AccountInsightsResult has
`task_count + event_count + case_count = total_activities`; the counts are
naturals, so `total_activities` is a non-negative integer by type. -/
theorem accountInsights_counts_sum (accId accName : String) (now : ℕ)
    (llm : BatchLLMOutput) (acts : List Activity)
    (req : AccountInsightsRequest) (res : AccountInsightsResponse)
    (h : (getAccountInsights accId accName now llm acts req).1 = Except.ok res) :
    res.processing_info.task_count + res.processing_info.event_count +
      res.processing_info.case_count = res.total_activities := by
  unfold getAccountInsights at h
  split_ifs at h
  all_goals simp at h
  all_goals
    subst h
    exact countKind_partition acts

/-- C4 witness: the counts of the sample three-activity fetch sum to its
total. -/
theorem accountInsights_counts_sum_witness :
    (buildInsights "001A" "Acme" 20240201 sampleBatchLLM sampleActs
        sampleRequest).processing_info.task_count +
      (buildInsights "001A" "Acme" 20240201 sampleBatchLLM sampleActs
        sampleRequest).processing_info.event_count +
      (buildInsights "001A" "Acme" 20240201 sampleBatchLLM sampleActs
        sampleRequest).processing_info.case_count =
      (buildInsights "001A" "Acme" 20240201 sampleBatchLLM sampleActs
        sampleRequest).total_activities :=
  accountInsights_counts_sum "001A" "Acme" 20240201 sampleBatchLLM sampleActs
    sampleRequest _ rfl

/-- C5: a valid request over a range with zero activities succeeds with
`total_activities = 0`, `batches_processed` equal to 0, the no-activity
executive summary, and zero `LLMGateway.complete` invocations. -/
theorem accountInsights_zero_activities (accId accName : String) (now : ℕ)
    (llm : BatchLLMOutput) (req : AccountInsightsRequest)
    (h1 : ¬ req.end_date < req.start_date) (h2 : req.formats ≠ []) :
    ∃ res, (getAccountInsights accId accName now llm [] req).1 =
        Except.ok res ∧
      res.total_activities = 0 ∧
      (res.processing_info.batches_processed = 0 ∨
        res.processing_info.batches_processed = 1) ∧
      res.executive_summary = noActivityMessage ∧
      (getAccountInsights accId accName now llm [] req).2 = 0 := by
  unfold getAccountInsights
  rw [if_neg h1, if_neg h2]
  exact ⟨_, rfl, rfl, Or.inl rfl, rfl, rfl⟩

/-- C5 witness: the zero-activity behaviour instantiated on the sample
valid January 2024 request. -/
theorem accountInsights_zero_activities_witness :
    ∃ res, (getAccountInsights "001A" "Acme" 20240201 sampleBatchLLM []
        sampleRequest).1 = Except.ok res ∧
      res.total_activities = 0 ∧
      (res.processing_info.batches_processed = 0 ∨
        res.processing_info.batches_processed = 1) ∧
      res.executive_summary = noActivityMessage ∧
      (getAccountInsights "001A" "Acme" 20240201 sampleBatchLLM []
        sampleRequest).2 = 0 :=
  accountInsights_zero_activities "001A" "Acme" 20240201 sampleBatchLLM
    sampleRequest (by decide) (by decide)

/-- C8: a request whose start date is after its end date, or whose format
set is empty, fails with `ValidationError`; every successful result carries
a date range with start at most end. -/
theorem accountInsights_validation (accId accName : String) (now : ℕ)
    (llm : BatchLLMOutput) (acts : List Activity)
    (req : AccountInsightsRequest) :
    ((req.start_date > req.end_date ∨ req.formats = []) →
      (getAccountInsights accId accName now llm acts req).1 =
        Except.error CoreError.validationError) ∧
    (∀ res, (getAccountInsights accId accName now llm acts req).1 =
        Except.ok res →
      res.date_range.start_date ≤ res.date_range.end_date) := by
  constructor
  · intro h
    unfold getAccountInsights
    rcases h with h | h
    · rw [if_pos h]
    · by_cases h1 : req.end_date < req.start_date
      · rw [if_pos h1]
      · rw [if_neg h1, if_pos h]
  · intro res h
    unfold getAccountInsights at h
    split_ifs at h with h1 h2 h3
    all_goals simp at h
    all_goals
      subst h
      show req.start_date ≤ req.end_date
      omega

/-- C8 witness: the sample malformed request is rejected with
`ValidationError`, and the sample valid request yields an ordered date
range. -/
theorem accountInsights_validation_witness :
    (getAccountInsights "001A" "Acme" 20240301 sampleBatchLLM sampleActs
        sampleBadRequest).1 = Except.error CoreError.validationError ∧
    (buildInsights "001A" "Acme" 20240301 sampleBatchLLM sampleActs
        sampleRequest).date_range.start_date ≤
      (buildInsights "001A" "Acme" 20240301 sampleBatchLLM sampleActs
        sampleRequest).date_range.end_date :=
  ⟨(accountInsights_validation "001A" "Acme" 20240301 sampleBatchLLM
      sampleActs sampleBadRequest).1 (Or.inl (by decide)),
   (accountInsights_validation "001A" "Acme" 20240301 sampleBatchLLM
      sampleActs sampleRequest).2 _ rfl⟩

/-- Every row of the by-month table — one rendered row per grouped month —
has exactly the two cells its header list announces. -/
theorem byMonth_rows_wf (bm : List (String × ℕ)) :
    (bm.map (fun p => [p.1, toString p.2])).all
      (fun row => row.length == 2) = true := by
  induction bm with
  | nil => rfl
  | cons q tl ih => simpa using ih

/-- Both rendered sub-tables satisfy the table shape invariant. -/
theorem renderTables_wf (m : MergedInsights) :
    ∀ p ∈ renderTables m, tableWF p.2 = true := by
  intro p hp
  simp only [renderTables, List.mem_cons, List.mem_singleton,
    List.not_mem_nil, or_false] at hp
  rcases hp with rfl | rfl
  · rfl
  · exact byMonth_rows_wf m.byMonth

/-- All three rendered charts satisfy the chart shape invariant. -/
theorem renderCharts_wf (m : MergedInsights) :
    ∀ c ∈ renderCharts m, chartWF c = true := by
  intro c hc
  simp only [renderCharts, List.mem_cons, List.mem_singleton,
    List.not_mem_nil, or_false] at hc
  rcases hc with rfl | rfl | rfl
  · rfl
  · rfl
  · simp [chartWF, List.length_map]

/-- Every rendered section only carries well-formed tables. -/
theorem renderSections_wf (m : MergedInsights) (formats : List SummaryFormat) :
    ∀ s ∈ renderSections m formats, sectionTablesWF s = true := by
  intro s hs
  rcases List.mem_map.mp hs with ⟨f, _, rfl⟩
  cases f with
  | pointers => rfl
  | charts => rfl
  | tables =>
    show (renderTables m).all (fun p => tableWF p.2) = true
    exact List.all_eq_true.mpr (renderTables_wf m)

/-- C7: every table produced by the renderer has rows exactly as long as
its header list, every chart dataset is aligned to its chart labels, pie
charts carry exactly one dataset, and every table reachable inside a
rendered section satisfies the same shape invariant. -/
theorem renderer_shape_invariants (m : MergedInsights)
    (formats : List SummaryFormat) :
    ((renderTables m).all (fun p => tableWF p.2)) = true ∧
      ((renderCharts m).all chartWF) = true ∧
      ((renderSections m formats).all sectionTablesWF) = true :=
  ⟨List.all_eq_true.mpr (renderTables_wf m),
   List.all_eq_true.mpr (renderCharts_wf m),
   List.all_eq_true.mpr (renderSections_wf m formats)⟩

/-- C9: when the model cannot answer from the retrieved case context, the
QueryCase result carries a confidence strictly below 0.2 (here zero), the
explicit insufficient-information answer, and no fabricated sources. -/
theorem queryCase_insufficient_context (caseId question : String) :
    (queryCase caseId question none).confidence < 1 / 5 ∧
      (queryCase caseId question none).answer = insufficientAnswer ∧
      (queryCase caseId question none).sources = [] := by
  refine ⟨?_, rfl, rfl⟩
  show (0 : ℚ) < 1 / 5
  norm_num
